import Mathlib

/-!
# Verification of the omtk rigging toolkit against its specification

Shallow embedding of the pure / decidable parts of the omtk repository:
the soft-IK compute network, the legacy IK stretch network, the control
shape library, the module registry, the spine joint-count guard, the rig
build guard and sequence protocol, and the facial avar dag-stack and
out-of-bound gating network.

Scene-mutating code is embedded in state-passing style: a build function
takes the current scene (a list of created node names) and returns either
an error (the Python exception message) or the updated scene, so "the
scene is unchanged on error" is the statement that the error branch is
reached before the state is threaded through any mutation.
-/

namespace Omtk

/-! ## Legacy IK stretch network (src/rigging/AutoRig/rigIK.py, IK.Build lines 91-102)

The network is: `attStretch = distance / chainLength` (multiplyDivide,
operation=2 i.e. divide), then a condition node with operation=2
(greater-than): `if attStretch > 1.0 then attStretch else 1.0`. -/

def legacyStretchFactor (fChainLength attChainDistance : ℚ) : ℚ :=
  let attStretch := attChainDistance / fChainLength
  if attStretch > 1.0 then attStretch else 1.0

/-! ## Shape library (src/omtk/libs/libCtrlShapes.py) -/

/-- `create_shape_needle`: resolved `length` for default argument (`size * 4.0`). -/
def needle_length (size : ℚ) : ℚ := size * 4.0

/-- `create_shape_needle`: resolved `radius` for default argument (`size * 0.25`). -/
def needle_radius (size : ℚ) : ℚ := size * 0.25

/-- `create_shape_needle`: `radius_mid = radius * 0.75`. -/
def needle_radius_mid (size : ℚ) : ℚ := needle_radius size * 0.75

/-- `create_shape_needle`: the first sub-curve (the shaft), a degree-1 curve
from the origin to `(0, y_circle_min, 0)` with `y_circle_min = length - radius`. -/
def needle_shape1 (size : ℚ) : List (ℚ × ℚ × ℚ) :=
  let length := needle_length size
  let radius := needle_radius size
  let y_circle_min := length - radius
  [(0.0, 0.0, 0.0), (0.0, y_circle_min, 0.0)]

/-- `create_shape_needle`: the second sub-curve (the diamond head profile). -/
def needle_shape2 (size : ℚ) : List (ℚ × ℚ × ℚ) :=
  let length := needle_length size
  let radius := needle_radius size
  let radius_mid := needle_radius_mid size
  let y_circle_mid_max := length + radius_mid
  let y_circle_mid_min := length - radius_mid
  let y_circle_min := length - radius
  let y_circle_max := length + radius
  let xz_circle_rad := radius
  let xz_circle_mid_rad := xz_circle_rad * 0.75
  [(0.0, y_circle_max, -0.0),
   (0.0, y_circle_max, 0.0),
   (xz_circle_mid_rad, y_circle_mid_max, 0.0),
   (xz_circle_rad, length, 0.0),
   (xz_circle_mid_rad, y_circle_mid_min, 0.0),
   (0.0, y_circle_min, 0),
   (-xz_circle_mid_rad, y_circle_mid_min, -0.0),
   (-xz_circle_rad, length, 0.0),
   (-xz_circle_mid_rad, y_circle_mid_max, 0.0),
   (0.0, y_circle_max, 0.0),
   (xz_circle_mid_rad, y_circle_mid_max, 0.0)]

/-- `create_shape_needle`: the third sub-curve (the cross-section ring at the tip). -/
def needle_shape3 (size : ℚ) : List (ℚ × ℚ × ℚ) :=
  let length := needle_length size
  let radius := needle_radius size
  let xz_circle_rad := radius
  let xz_circle_mid_rad := xz_circle_rad * 0.75
  [(-xz_circle_mid_rad, length, -xz_circle_mid_rad),
   (-xz_circle_rad, length, 0.0),
   (-xz_circle_mid_rad, length, xz_circle_mid_rad),
   (0.0, length, xz_circle_rad),
   (xz_circle_mid_rad, length, xz_circle_mid_rad),
   (xz_circle_rad, length, 0.0),
   (xz_circle_mid_rad, length, -xz_circle_mid_rad),
   (0.0, length, -xz_circle_rad),
   (-xz_circle_mid_rad, length, -xz_circle_mid_rad),
   (-xz_circle_rad, length, 0.0),
   (-xz_circle_rad, length, 0.0)]

/-- `create_shape_cross`: 13-point planar cross outline with `s1 = size * 0.5`
and `s2 = size`. -/
def create_shape_cross (size : ℚ) : List (ℚ × ℚ × ℚ) :=
  let s1 := size * 0.5
  let s2 := size
  [(0, -s1, s1),
   (0, -s1, s2),
   (0, s1, s2),
   (0, s1, s1),
   (0, s2, s1),
   (0, s2, -s1),
   (0, s1, -s1),
   (0, s1, -s2),
   (0, -s1, -s2),
   (0, -s1, -s1),
   (0, -s2, -s1),
   (0, -s2, s1),
   (0, -s1, s1)]

/-- The coordinate alphabet claimed for the cross outline:
zero, plus or minus `0.5*size`, plus or minus `size`. -/
def crossCoord (size x : ℚ) : Prop :=
  x = 0 ∨ x = size * 0.5 ∨ x = -(size * 0.5) ∨ x = size ∨ x = -size

/-! ## Module registry (src/scripts/omtk/modules/__init__.py, create) -/

/-- A constructed instance of a module class; distinct from the class itself
so that "returns the class, not the instance" is expressible. -/
structure Inst (α : Type) where
  cls : α
deriving DecidableEq, Repr

/-- Modelled from the spec: `libPython.get_class_def` is not part of the
excerpt (libPython is a referenced helper library).  Per section 4.3 it
"looks up `class_name` among the statically-registered module classes" of a
fixed catalogue; modelled as association-list lookup by name. -/
def get_class_def (registry : List (String × α)) (cls_name : String) : Option α :=
  registry.lookup cls_name

/-- Embedding of `create(cls_name, *args, **kwargs)`.
The second component of the result collects the instances constructed as a
side effect (`cls(*args, **kwargs)` discards its result).  On success the
returned value is `cls` itself (the class object), not the instance. -/
def create (registry : List (String × α)) (cls_name : String) :
    Except String α × List (Inst α) :=
  match get_class_def registry cls_name with
  | none => (Except.error ("Can\x27t find any module named " ++ cls_name), [])
  | some cls => (Except.ok cls, [⟨cls⟩])

/-! ## DpSpine (src/omtk/rigDpSpine.py, DpSpine.build)

`build` raises `Exception("Expected 3 joints. Got {0}.")` as its very first
statement when `len(self.chain) != 3`; every scene mutation (the
super().build call, ctrl creation, ribbon, squash network) happens after the
guard.  The scene is a list of created node names; the body is summarised by
the names of the ctrls the build creates. -/

def dpSpine_created_ctrls : List String :=
  ["HipsA", "ChestA", "HipsB", "ChestB", "Middle1"]

def dpSpine_build (chain : List String) (scene : List String) :
    Except String (List String) :=
  if chain.length ≠ 3 then
    Except.error ("Expected 3 joints. Got " ++ toString chain.length ++ ".")
  else
    Except.ok (scene ++ dpSpine_created_ctrls)

/-! ## Rig orchestrator (src/omtk/classRig.py) -/

/-- A child module as seen by `Rig`: its `built` state and the `_parent`
back-reference stamped by `Rig.insert` (modelled by the owning rig's name). -/
structure PyModule where
  name : String
  built : Bool
  parent : Option String
deriving DecidableEq, Repr

/-- The `Rig` aggregate state: its name, its ordered children and the scene
nodes it created (state-passing embedding of the host scene). -/
structure Rig where
  name : String
  children : List PyModule
  scene : List String
deriving DecidableEq, Repr

/-- `Rig.is_built`: true iff any child module is built. -/
def rig_is_built (r : Rig) : Bool :=
  r.children.any (fun child => child.built)

/-- `Rig.__str__`: `"<rig {0}/>".format(self.name)`. -/
def rig_str (r : Rig) : String :=
  "<rig " ++ r.name ++ "/>"

/-- Embedding of `Rig.build`.  The already-built guard is the first
statement: it emits `pymel.warning(...)` and returns `False` without
touching the scene.  The build body (prebuild, child builds, post-build
groups and display layers) is summarised by marking every child built and
appending the root scaffolding node names; a child build may raise, which
the `Except` carries, but the guard path always returns.
Result: `(new rig state, returned value, emitted warnings)`. -/
def rig_build (r : Rig) : Except String (Rig × Bool × List String) :=
  if rig_is_built r then
    Except.ok (r, false,
      ["Can\x27t build " ++ rig_str r ++ " because it\x27s already built!"])
  else
    Except.ok
      ({ r with
          children := r.children.map (fun child => { child with built := true }),
          scene := r.scene ++
            ["grp_jnts", "grp_anms", "grp_rigs", "grp_geos",
             "layer_anm", "layer_rig", "layer_geo"] },
        true, [])

/-- Embedding of `Rig.__getitem__`.  The Python body is
`self.children.__getitem__(item)` with no `return` statement: the element
access is evaluated (raising `IndexError` when out of range) and its result
is discarded, so on success the function returns `None`. -/
def rig_getitem (r : Rig) (i : ℕ) : Except String (Option PyModule) :=
  match r.children.get? i with
  | some _ => Except.ok none
  | none => Except.error "IndexError"

/-- `Rig.__len__`: delegates to `self.children.__len__()`. -/
def rig_len (r : Rig) : ℕ :=
  r.children.length

/-- `Rig.insert(index, value)`: inserts into `children` and stamps
`value._parent = self`. -/
def rig_insert (r : Rig) (i : ℕ) (value : PyModule) : Rig :=
  { r with children := r.children.insertIdx i { value with parent := some r.name } }

/-! ## Facial avar system (src/omtk/modules/rigFaceAvar.py) -/

/-- `Node.append_layer(name)`: daisy-chains one more named transform layer
at the end of the dag stack.  The stack is modelled by its ordered layer
names; creation order is outermost to innermost. -/
def append_layer (stack : List String) (layer : String) : List String :=
  stack ++ [layer]

/-- `AvarSimple.build_stack`: appends the `pos` layer, whose tx/ty/tz/ry/rx/rz
channels are wired from the six transform avars (lr, ud, fb, yw, pt, rl). -/
def avarSimple_build_stack (stack : List String) : List String :=
  append_layer stack "pos"

/-- `AvarFollicle.build_stack`: overrides `AvarSimple.build_stack` WITHOUT
calling the base implementation; its `append_layer` calls are, in source
order: `follicleLayer`, `oobLayer`, `fbLayer`, `folRot`, `rotLayer`. -/
def avarFollicle_build_stack (stack : List String) : List String :=
  append_layer (append_layer (append_layer (append_layer (append_layer stack
    "follicleLayer") "oobLayer") "fbLayer") "folRot") "rotLayer"

/-- `AvarSimple.build` creates a fresh (empty) stack node and calls
`self.build_stack(stack)`; for an `AvarFollicle` instance dynamic dispatch
selects `AvarFollicle.build_stack`. -/
def avarFollicle_build_layers : List String :=
  avarFollicle_build_stack []

/-! ### Out-of-bound gating network (AvarFollicle.build_stack, oobLayer) -/

def oob_step_size : ℚ := 0.001

/-- condition node, operation=4 (less than): `u < 0`. -/
def condition_oob_u_neg (u : ℚ) : ℚ := if u < 0.0 then 1.0 else 0.0

/-- condition node, operation=2 (greater than): `u > 1`. -/
def condition_oob_u_pos (u : ℚ) : ℚ := if u > 1.0 then 1.0 else 0.0

/-- condition node, operation=4 (less than): `v < 0`. -/
def condition_oob_v_neg (v : ℚ) : ℚ := if v < 0.0 then 1.0 else 0.0

/-- condition node, operation=2 (greater than): `v > 1`. -/
def condition_oob_v_pos (v : ℚ) : ℚ := if v > 1.0 then 1.0 else 0.0

/-- condition node, operation=0 (equal), selecting the positive or negative
overshoot of U: `u - 1` when `condition_oob_u_pos u = 1`, else `u * (-1)`. -/
def oob_val_u (u : ℚ) : ℚ :=
  if condition_oob_u_pos u = 1.0 then u - 1.0 else u * (-1.0)

/-- Overshoot of V, symmetric to `oob_val_u`. -/
def oob_val_v (v : ℚ) : ℚ :=
  if condition_oob_v_pos v = 1.0 then v - 1.0 else v * (-1.0)

/-- multiplyDivide, operation=2 (divide): overshoot scaled by the clamp step. -/
def oob_amount_u (u : ℚ) : ℚ := oob_val_u u / oob_step_size

def oob_amount_v (v : ℚ) : ℚ := oob_val_v v / oob_step_size

def vecScale (k : ℚ) (d : ℚ × ℚ × ℚ) : ℚ × ℚ × ℚ :=
  (k * d.1, k * d.2.1, k * d.2.2)

def vecAdd (a b : ℚ × ℚ × ℚ) : ℚ × ℚ × ℚ :=
  (a.1 + b.1, a.2.1 + b.2.1, a.2.2 + b.2.2)

/-- multiplyDivide: the U boundary-gradient direction (`dir_oob_u`, the
vector from the clamped sliding point to the influence point, a scene
quantity kept symbolic here) scaled by `oob_amount_u`. -/
def oob_offset_u (u : ℚ) (dir_oob_u : ℚ × ℚ × ℚ) : ℚ × ℚ × ℚ :=
  vecScale (oob_amount_u u) dir_oob_u

def oob_offset_v (v : ℚ) (dir_oob_v : ℚ × ℚ × ℚ) : ℚ × ℚ × ℚ :=
  vecScale (oob_amount_v v) dir_oob_v

/-- The gate on the U axis offset: condition node, operation=0 (equal),
`firstTerm = condition_oob_u_neg + condition_oob_u_pos`, `secondTerm = 1.0`;
the offset passes iff the sum of the two U threshold comparisons is 1.
Note both comparisons read U itself — neither reads V. -/
def oob_u_condition_out (u : ℚ) (dir_oob_u : ℚ × ℚ × ℚ) : ℚ × ℚ × ℚ :=
  if condition_oob_u_neg u + condition_oob_u_pos u = 1.0 then
    oob_offset_u u dir_oob_u
  else (0, 0, 0)

/-- The gate on the V axis offset, symmetric to `oob_u_condition_out`. -/
def oob_v_condition_out (v : ℚ) (dir_oob_v : ℚ × ℚ × ℚ) : ℚ × ℚ × ℚ :=
  if condition_oob_v_neg v + condition_oob_v_pos v = 1.0 then
    oob_offset_v v dir_oob_v
  else (0, 0, 0)

/-- plusMinusAverage: the oobLayer translation is the sum of the two gated
axis offsets. -/
def oob_offset (u v : ℚ) (dir_oob_u dir_oob_v : ℚ × ℚ × ℚ) : ℚ × ℚ × ℚ :=
  vecAdd (oob_u_condition_out u dir_oob_u) (oob_v_condition_out v dir_oob_v)

/-! ### AbstractAvar.hold_avars / unbuild -/

/-- A non-owning handle to a scene node; `alive` is the `PyNode.exists()`
liveness query. -/
structure NodeRef where
  name : String
  alive : Bool
deriving DecidableEq, Repr

/-- The `AbstractAvar` state relevant to `hold_avars`/`unbuild`:
the `grp_rig` handle, the `avar_network` backup handle, the nine avar
attribute handles set by `init_avars`/`add_avars`, and the warning log. -/
structure AvarState where
  name : String
  grp_rig : Option NodeRef
  avar_network : Option NodeRef
  attr_ud : Option String
  attr_lr : Option String
  attr_fb : Option String
  attr_yw : Option String
  attr_pt : Option String
  attr_rl : Option String
  attr_sx : Option String
  attr_sy : Option String
  attr_sz : Option String
  warnings : List String
deriving DecidableEq, Repr

/-- The guard condition of `hold_avars`:
`self.grp_rig is None or not self.grp_rig.exists()`. -/
def grp_rig_invalid (s : AvarState) : Bool :=
  match s.grp_rig with
  | none => true
  | some g => !g.alive

/-- `AbstractAvar.hold_avars`: on an invalid `grp_rig` it warns and returns
before creating anything (in particular `avar_network` is not assigned).
Otherwise it creates the `avarBackup` network node, adds the nine avar
attributes on it and transfers the live connections (the transfer is
summarised; only the node creation matters for the claims). -/
def hold_avars (s : AvarState) : AvarState :=
  if grp_rig_invalid s then
    { s with warnings := s.warnings ++
        ["Can\x27t hold avars, invalid grp_rig in " ++ s.name ++ "!"] }
  else
    { s with avar_network := some { name := "avarBackup", alive := true } }

/-- `AbstractAvar.init_avars`: resets all nine avar attribute handles. -/
def init_avars (s : AvarState) : AvarState :=
  { s with
      attr_ud := none, attr_lr := none, attr_fb := none,
      attr_yw := none, attr_pt := none, attr_rl := none,
      attr_sx := none, attr_sy := none, attr_sz := none }

/-- Modelled from the spec: `classModule.Module.unbuild` (the generic Module
base class) is not part of the excerpt.  Per section 4.1 it deletes the
module's owned scene nodes best-effort, is idempotent and never raises;
modelled as clearing the module's rig-group handle, totally. -/
def module_unbuild (s : AvarState) : AvarState :=
  { s with grp_rig := none }

/-- `AbstractAvar.unbuild`: `hold_avars()`, then `init_avars()`, then
`super().unbuild()`; a total function (it always completes). -/
def abstractAvar_unbuild (s : AvarState) : AvarState :=
  module_unbuild (init_avars (hold_avars s))

/-! ## SoftIkNode (src/omtk/rigging/autorig/rigIK.py, SoftIkNode.build)

The formula network, with `inDistance = inMatrixS ~ inMatrixE` (the distance
between the two input matrices) taken directly as the input `D`:
`distanceSoft = inChainLength * inRatio`;
`distanceSafe = inChainLength - distanceSoft`;
`deltaSafeSoft = (inDistance - distanceSafe) / distanceSoft`, replaced by a
condition node yielding `0.0` when `distanceSoft = 0` (division guard);
`outDistanceSoft = distanceSoft * (1 - e^(deltaSafeSoft * -1)) + distanceSafe`;
a greater-than condition node selecting `outDistanceSoft` when
`deltaSafeSoft > 0` and `inDistance` otherwise; a blendTwoAttr node blending
that toward `inDistance` by `inStretch`; and `outRatio = outDistance / inDistance`. -/

noncomputable def softIkOutRatio (inChainLength inRatio inStretch inDistance : ℝ) : ℝ :=
  let distanceSoft := inChainLength * inRatio
  let distanceSafe := inChainLength - distanceSoft
  let deltaSafeSoft := if distanceSoft = 0 then 0
    else (inDistance - distanceSafe) / distanceSoft
  let outDistanceSoft := distanceSoft * (1 - Real.exp (deltaSafeSoft * (-1))) + distanceSafe
  let outDistanceA := if deltaSafeSoft > 0 then outDistanceSoft else inDistance
  let outDistance := outDistanceA * (1 - inStretch) + inDistance * inStretch
  outDistance / inDistance

/-- The claim's formula, written from the spec's words (its section 4.7 and
testable property 5): `softDist = L*r`, `safeDist = L - softDist`,
`delta = (D - safeDist)/softDist` (exactly 0 when `softDist = 0`),
`softTargetDist = softDist*(1 - e^(-delta)) + safeDist`, effective distance
`softTargetDist` when `delta > 0` else `D`, blended toward `D` by
`inStretch`, and `outRatio` = effective distance / `D`.  Compared with
`softIkOutRatio` (the embedding of the code) in the refinement theorem. -/
noncomputable def softIkOutRatio_spec (L r stretch D : ℝ) : ℝ :=
  let softDist := L * r
  let safeDist := L - softDist
  let delta := if softDist = 0 then 0 else (D - safeDist) / softDist
  let softTargetDist := softDist * (1 - Real.exp (-delta)) + safeDist
  let effective := (if delta > 0 then softTargetDist else D) * (1 - stretch) + D * stretch
  effective / D

end Omtk

namespace Omtk

/-! ## Theorems -/

/-- C7: In the legacy IK module with `bStretch=True` and chain length `L`,
the stretch factor equals `max(1.0, D/L)` for every control distance `D`;
it is never below `1.0`, and it is exactly `1.0` whenever `D ≤ L`
(stretching begins only past full extension). -/
theorem legacy_ik_stretch_clamp (L D : ℚ) :
    legacyStretchFactor L D = max 1.0 (D / L) ∧
    1.0 ≤ legacyStretchFactor L D ∧
    (0 < L → D ≤ L → legacyStretchFactor L D = 1.0) := by
  refine ⟨?_, ?_, ?_⟩
  · simp only [legacyStretchFactor, max_def]
    split_ifs with h1 h2 h2 <;> first | rfl | linarith
  · simp only [legacyStretchFactor]
    split_ifs with h1 <;> linarith
  · intro hL hDL
    have hdiv : D / L ≤ 1 := by
      rw [div_le_one hL]
      linarith
    simp only [legacyStretchFactor]
    split_ifs with h1
    · linarith
    · rfl

/-- Witness for `legacy_ik_stretch_clamp` at `L = 4, D = 3`. -/
theorem legacy_ik_stretch_clamp_witness :
    legacyStretchFactor 4 3 = max 1.0 ((3 : ℚ) / 4) ∧ legacyStretchFactor 4 3 = 1.0 :=
  ⟨(legacy_ik_stretch_clamp 4 3).1,
   (legacy_ik_stretch_clamp 4 3).2.2 (by norm_num) (by norm_num)⟩

/-- C8 counterexample: the shaft curve of `create_shape_needle(size=2)` runs
from the origin to `(0, 7.5, 0)` — its length is `length - radius = 7.5`,
not `4 * size = 8` as claimed. -/
theorem shape_needle_shaft_counterexample :
    needle_shape1 2 = [(0, 0, 0), (0, 15 / 2, 0)] ∧ (15 / 2 : ℚ) ≠ 4 * 2 := by
  constructor
  · norm_num [needle_shape1, needle_length, needle_radius]
  · norm_num

/-- C8 (amended): `create_shape_needle(size=s)` with default arguments
resolves `length = 4*s`, a head radius `0.25*s` and a mid-radius
`0.75*(0.25*s)`; its shaft curve spans from the origin to
`length - radius = 3.75*s` on the Y axis; the head profile contains points
at the head radius and at the mid radius around height `length`;
`create_shape_cross(size=c)` produces a 13-point planar outline whose point
coordinates all lie in `{0, ± 0.5*c, ± c}`. -/
theorem shape_library_invariants (s c : ℚ) :
    needle_length s = 4 * s ∧
    needle_shape1 s = [(0, 0, 0), (0, 4 * s - 0.25 * s, 0)] ∧
    needle_radius s = 0.25 * s ∧
    needle_radius_mid s = 0.75 * (0.25 * s) ∧
    (needle_radius s, needle_length s, 0) ∈ needle_shape2 s ∧
    ((0 : ℚ), needle_length s + needle_radius s, 0) ∈ needle_shape2 s ∧
    (needle_radius_mid s, needle_length s + needle_radius_mid s, 0) ∈ needle_shape2 s ∧
    (create_shape_cross c).length = 13 ∧
    (∀ p ∈ create_shape_cross c,
      crossCoord c p.1 ∧ crossCoord c p.2.1 ∧ crossCoord c p.2.2) := by
  refine ⟨by simp only [needle_length]; ring, ?_, by simp only [needle_radius]; norm_num; ring,
    by simp only [needle_radius_mid, needle_radius]; norm_num; ring, ?_, ?_, ?_,
    by simp [create_shape_cross], ?_⟩
  · simp only [needle_shape1, needle_length, needle_radius]
    norm_num
    ring
  · simp only [needle_shape2, needle_radius_mid, needle_radius, needle_length]
    norm_num
  · simp only [needle_shape2, needle_radius_mid, needle_radius, needle_length]
    norm_num
  · simp only [needle_shape2, needle_radius_mid, needle_radius, needle_length]
    norm_num
  · intro p hp
    simp only [create_shape_cross, List.mem_cons, List.not_mem_nil, or_false] at hp
    rcases hp with rfl | rfl | rfl | rfl | rfl | rfl | rfl | rfl | rfl | rfl | rfl | rfl | rfl <;>
      simp [crossCoord]

/-- Witness for `shape_library_invariants` at `s = 2`, `c = 4` and the cross
point `(0, -2, 2)`. -/
theorem shape_library_invariants_witness :
    needle_length 2 = 4 * 2 ∧ crossCoord 4 0 ∧ crossCoord 4 (-2) ∧ crossCoord 4 2 :=
  ⟨(shape_library_invariants 2 4).1,
   by
    have h := (shape_library_invariants 2 4).2.2.2.2.2.2.2.2 (0, -2, 2)
      (by norm_num [create_shape_cross])
    norm_num at h
    exact h⟩

/-- C4: the module registry `create` fails with an error message naming the
requested class when the lookup misses (and constructs nothing), and when
the lookup hits it constructs an instance of the class but returns the
class object itself, not the new instance. -/
theorem registry_create_ok {α : Type} (registry : List (String × α)) (cls_name : String) :
    (get_class_def registry cls_name = none →
      create registry cls_name =
        (Except.error ("Can\x27t find any module named " ++ cls_name), [])) ∧
    (∀ cls, get_class_def registry cls_name = some cls →
      create registry cls_name = (Except.ok cls, [⟨cls⟩])) := by
  constructor
  · intro h
    simp [create, h]
  · intro cls h
    simp [create, h]

/-- Witness for `registry_create_ok` on the registry `[("FK", 0)]` with the
missing name `"DpSpine"` and the present name `"FK"`. -/
theorem registry_create_ok_witness :
    create [("FK", (0 : ℕ))] "DpSpine" =
      (Except.error ("Can\x27t find any module named " ++ "DpSpine"), []) ∧
    create [("FK", (0 : ℕ))] "FK" = (Except.ok 0, [⟨0⟩]) :=
  ⟨(registry_create_ok [("FK", 0)] "DpSpine").1 rfl,
   (registry_create_ok [("FK", 0)] "FK").2 0 rfl⟩

/-- C5: `DpSpine.build` fails with the configuration error
`"Expected 3 joints. Got N."` whenever the chain does not hold exactly 3
joints; the guard is the first statement of `build`, so in the
state-passing embedding the error is returned before the scene is threaded
through any mutation (the input scene is unchanged).  With exactly 3 joints
this error is not raised. -/
theorem dpSpine_build_joint_count (chain scene : List String) :
    (chain.length ≠ 3 →
      dpSpine_build chain scene =
        Except.error ("Expected 3 joints. Got " ++ toString chain.length ++ ".")) ∧
    (chain.length = 3 →
      dpSpine_build chain scene = Except.ok (scene ++ dpSpine_created_ctrls)) := by
  constructor <;> intro h <;> simp [dpSpine_build, h]

/-- Witness for `dpSpine_build_joint_count` on a 2-joint and a 3-joint chain. -/
theorem dpSpine_build_joint_count_witness :
    dpSpine_build ["a", "b"] [] =
      Except.error ("Expected 3 joints. Got " ++ toString ([ "a", "b" ].length) ++ ".") ∧
    dpSpine_build ["a", "b", "c"] [] = Except.ok ([] ++ dpSpine_created_ctrls) :=
  ⟨(dpSpine_build_joint_count ["a", "b"] []).1 (by decide),
   (dpSpine_build_joint_count ["a", "b", "c"] []).2 (by decide)⟩

/-- C6: calling `Rig.build` on a rig that already reports `is_built()` emits
exactly one warning and returns `False`, with the rig state (including the
scene nodes it owns) unchanged, and it never raises for this condition
(the result is an `ok`, not an `error`). -/
theorem rig_build_idempotent_guard (r : Rig) (h : rig_is_built r = true) :
    rig_build r =
      Except.ok (r, false,
        ["Can\x27t build " ++ rig_str r ++ " because it\x27s already built!"]) := by
  simp [rig_build, h]

/-- Witness for `rig_build_idempotent_guard` on a one-child rig whose child
is built. -/
theorem rig_build_idempotent_guard_witness :
    rig_build { name := "untitled",
                children := [{ name := "spine", built := true, parent := none }],
                scene := ["grp_jnts"] } =
      Except.ok ({ name := "untitled",
                   children := [{ name := "spine", built := true, parent := none }],
                   scene := ["grp_jnts"] }, false,
        ["Can\x27t build " ++
          rig_str { name := "untitled",
                    children := [{ name := "spine", built := true, parent := none }],
                    scene := ["grp_jnts"] } ++ " because it\x27s already built!"]) :=
  rig_build_idempotent_guard _ (by decide)

/-- C9 (code bug): `Rig.__getitem__` computes `self.children.__getitem__(item)`
but is missing the `return`, so `rig[i]` yields `None` instead of the i-th
child module.  Evaluated at the failing input (a rig with one child, index
0): the call succeeds but produces `None`, not the child.  The other two
parts of the claim do hold: `len(rig)` is the number of children and
`insert` places the module at the index with the parent back-reference
stamped. -/
theorem rig_getitem_missing_return :
    rig_getitem { name := "untitled",
                  children := [{ name := "spine", built := false, parent := none }],
                  scene := [] } 0 = Except.ok none ∧
    (none : Option PyModule) ≠ some { name := "spine", built := false, parent := none } ∧
    rig_len { name := "untitled",
              children := [{ name := "spine", built := false, parent := none }],
              scene := [] } = 1 ∧
    (rig_insert { name := "untitled",
                  children := [{ name := "spine", built := false, parent := none }],
                  scene := [] } 0
        { name := "arm", built := false, parent := none }).children =
      [{ name := "arm", built := false, parent := some "untitled" },
       { name := "spine", built := false, parent := none }] := by
  refine ⟨rfl, by decide, rfl, ?_⟩
  simp [rig_insert, List.insertIdx]

/-- C2 counterexample: the dag stack built by `AvarFollicle.build_stack` has
no `pos` layer at all — `AvarFollicle.build_stack` overrides the base
implementation without invoking it — so the layer sequence is not
`pos, follicleLayer, oobLayer, fbLayer, folRot, rotLayer`. -/
theorem avarFollicle_stack_no_pos_layer :
    avarFollicle_build_layers ≠
      ["pos", "follicleLayer", "oobLayer", "fbLayer", "folRot", "rotLayer"] := by
  decide

/-- C2 (amended): for every `AvarFollicle` build the dag-stack layers are
created in exactly the order `follicleLayer, oobLayer, fbLayer, folRot,
rotLayer` (outermost to innermost); the `pos` layer of
`AvarSimple.build_stack` (the one driven by the six transform avars) is not
created, because `AvarFollicle.build_stack` does not call the base
implementation. -/
theorem avarFollicle_stack_order :
    avarFollicle_build_layers =
      ["follicleLayer", "oobLayer", "fbLayer", "folRot", "rotLayer"] ∧
    avarSimple_build_stack [] = ["pos"] := by
  constructor <;> rfl

/-- C3 counterexample: with U driven to `1.2` and V to `-0.3` (both out of
bounds), both gated axis offsets are applied (for the unit direction
vectors: `200 * dirU` and `300 * dirV`), contradicting the claim that
neither axis's out-of-bound offset is applied in that configuration. -/
theorem avarFollicle_oob_counterexample :
    ¬ (oob_u_condition_out (12 / 10) (1, 0, 0) = (0, 0, 0) ∧
       oob_v_condition_out (-3 / 10) (0, 1, 0) = (0, 0, 0)) ∧
    oob_u_condition_out (12 / 10) (1, 0, 0) = (200, 0, 0) ∧
    oob_v_condition_out (-3 / 10) (0, 1, 0) = (0, 300, 0) := by
  refine ⟨?_, ?_, ?_⟩
  · intro h
    have := h.1
    norm_num [oob_u_condition_out, condition_oob_u_neg, condition_oob_u_pos,
      oob_offset_u, oob_amount_u, oob_val_u, oob_step_size, vecScale] at this
  · norm_num [oob_u_condition_out, condition_oob_u_neg, condition_oob_u_pos,
      oob_offset_u, oob_amount_u, oob_val_u, oob_step_size, vecScale]
  · norm_num [oob_v_condition_out, condition_oob_v_neg, condition_oob_v_pos,
      oob_offset_v, oob_amount_v, oob_val_v, oob_step_size, vecScale]

/-- C3 (amended): each axis's out-of-bound offset is gated by that axis's
own two threshold comparisons (U uses U<0 and U>1; V uses V<0 and V>1), so
an axis's offset is applied exactly when that axis itself is out of bounds,
independently of the other axis.  For U=1.2, V=0.5 only the U offset is
non-zero; for U=1.2, V=-0.3 both offsets are applied. -/
theorem avarFollicle_oob_gating (u v : ℚ) (dU dV : ℚ × ℚ × ℚ) :
    (oob_u_condition_out u dU =
      if u < 0.0 ∨ u > 1.0 then vecScale (oob_amount_u u) dU else (0, 0, 0)) ∧
    (oob_v_condition_out v dV =
      if v < 0.0 ∨ v > 1.0 then vecScale (oob_amount_v v) dV else (0, 0, 0)) ∧
    oob_offset (12 / 10) (5 / 10) (1, 0, 0) (0, 1, 0) = (200, 0, 0) ∧
    oob_offset (12 / 10) (-3 / 10) (1, 0, 0) (0, 1, 0) = (200, 300, 0) := by
  refine ⟨?_, ?_, ?_, ?_⟩
  · simp only [oob_u_condition_out, condition_oob_u_neg, condition_oob_u_pos, oob_offset_u]
    by_cases h1 : u < 0.0
    · have h2 : ¬ u > 1.0 := by norm_num at h1 ⊢; linarith
      rw [if_pos h1, if_neg h2, if_pos (show (1.0 : ℚ) + 0.0 = 1.0 by norm_num),
        if_pos (Or.inl h1)]
    · by_cases h2 : u > 1.0
      · rw [if_neg h1, if_pos h2, if_pos (show (0.0 : ℚ) + 1.0 = 1.0 by norm_num),
          if_pos (Or.inr h2)]
      · rw [if_neg h1, if_neg h2, if_neg (show ¬ ((0.0 : ℚ) + 0.0 = 1.0) by norm_num),
          if_neg (by tauto)]
  · simp only [oob_v_condition_out, condition_oob_v_neg, condition_oob_v_pos, oob_offset_v]
    by_cases h1 : v < 0.0
    · have h2 : ¬ v > 1.0 := by norm_num at h1 ⊢; linarith
      rw [if_pos h1, if_neg h2, if_pos (show (1.0 : ℚ) + 0.0 = 1.0 by norm_num),
        if_pos (Or.inl h1)]
    · by_cases h2 : v > 1.0
      · rw [if_neg h1, if_pos h2, if_pos (show (0.0 : ℚ) + 1.0 = 1.0 by norm_num),
          if_pos (Or.inr h2)]
      · rw [if_neg h1, if_neg h2, if_neg (show ¬ ((0.0 : ℚ) + 0.0 = 1.0) by norm_num),
          if_neg (by tauto)]
  · norm_num [oob_offset, oob_u_condition_out, oob_v_condition_out,
      condition_oob_u_neg, condition_oob_u_pos, condition_oob_v_neg, condition_oob_v_pos,
      oob_offset_u, oob_offset_v, oob_amount_u, oob_amount_v, oob_val_u, oob_val_v,
      oob_step_size, vecScale, vecAdd]
  · norm_num [oob_offset, oob_u_condition_out, oob_v_condition_out,
      condition_oob_u_neg, condition_oob_u_pos, condition_oob_v_neg, condition_oob_v_pos,
      oob_offset_u, oob_offset_v, oob_amount_u, oob_amount_v, oob_val_u, oob_val_v,
      oob_step_size, vecScale, vecAdd]

/-- C10: when `grp_rig` is `None` or no longer resolves to a live node,
`hold_avars` only logs a warning — no backup network node is created, so
`avar_network` keeps its previous value and no avar connection is
preserved — and `unbuild` still completes (it is a total function),
resetting all nine avar attribute handles to `None`. -/
theorem abstractAvar_unbuild_invalid_grp_rig (s : AvarState)
    (h : grp_rig_invalid s = true) :
    hold_avars s = { s with warnings := s.warnings ++
        ["Can\x27t hold avars, invalid grp_rig in " ++ s.name ++ "!"] } ∧
    (abstractAvar_unbuild s).avar_network = s.avar_network ∧
    (abstractAvar_unbuild s).warnings = s.warnings ++
        ["Can\x27t hold avars, invalid grp_rig in " ++ s.name ++ "!"] ∧
    (abstractAvar_unbuild s).attr_ud = none ∧
    (abstractAvar_unbuild s).attr_lr = none ∧
    (abstractAvar_unbuild s).attr_fb = none ∧
    (abstractAvar_unbuild s).attr_yw = none ∧
    (abstractAvar_unbuild s).attr_pt = none ∧
    (abstractAvar_unbuild s).attr_rl = none ∧
    (abstractAvar_unbuild s).attr_sx = none ∧
    (abstractAvar_unbuild s).attr_sy = none ∧
    (abstractAvar_unbuild s).attr_sz = none := by
  simp [hold_avars, abstractAvar_unbuild, module_unbuild, init_avars, h]

/-- Witness for `abstractAvar_unbuild_invalid_grp_rig` on an avar whose
`grp_rig` handle is `None` and whose attribute handles are still set. -/
theorem abstractAvar_unbuild_invalid_grp_rig_witness :
    (abstractAvar_unbuild
      { name := "avar_test", grp_rig := none, avar_network := none,
        attr_ud := some "avar_ud", attr_lr := some "avar_lr",
        attr_fb := some "avar_fb", attr_yw := some "avar_yw",
        attr_pt := some "avar_pt", attr_rl := some "avar_rl",
        attr_sx := some "avar_scale_lr", attr_sy := some "avar_scale_ud",
        attr_sz := some "avar_scale_fb", warnings := [] }).avar_network = none ∧
    (abstractAvar_unbuild
      { name := "avar_test", grp_rig := none, avar_network := none,
        attr_ud := some "avar_ud", attr_lr := some "avar_lr",
        attr_fb := some "avar_fb", attr_yw := some "avar_yw",
        attr_pt := some "avar_pt", attr_rl := some "avar_rl",
        attr_sx := some "avar_scale_lr", attr_sy := some "avar_scale_ud",
        attr_sz := some "avar_scale_fb", warnings := [] }).attr_ud = none :=
  ⟨((abstractAvar_unbuild_invalid_grp_rig _ (by decide)).2.1),
   ((abstractAvar_unbuild_invalid_grp_rig _ (by decide)).2.2.2.1)⟩

/-- C1: the soft-IK network's `outRatio` agrees with the spec's formula for
all inputs (delta guarded to 0 when `softDist = 0`, softening only when
`delta > 0`, blending toward `D` by `inStretch`), and for
`inChainLength = 10`, `inRatio = 0.1`, `inStretch = 0`:
`outRatio = 1` at `D = 9`; at `D = 9.5` it equals
`(1*(1 - e^(-1/2)) + 9) / 9.5` and lies between `9.3934/9.5` and
`9.3935/9.5` (the claimed `~ 9.3935/9.5`); and `outRatio = 1` exactly for
every `D` strictly inside the safe zone (`0 < D < 9`). -/
theorem softIk_outRatio_ok :
    (∀ L r s D : ℝ, softIkOutRatio L r s D = softIkOutRatio_spec L r s D) ∧
    softIkOutRatio 10 (1 / 10) 0 9 = 1 ∧
    softIkOutRatio 10 (1 / 10) 0 (19 / 2) =
      (1 * (1 - Real.exp (-(1 / 2))) + 9) / (19 / 2) ∧
    (93934 / 10000) / (19 / 2) < softIkOutRatio 10 (1 / 10) 0 (19 / 2) ∧
    softIkOutRatio 10 (1 / 10) 0 (19 / 2) < (93935 / 10000) / (19 / 2) ∧
    (∀ D : ℝ, 0 < D → D < 9 → softIkOutRatio 10 (1 / 10) 0 D = 1) := by
  have hspec : ∀ L r s D : ℝ, softIkOutRatio L r s D = softIkOutRatio_spec L r s D := by
    intro L r s D
    simp only [softIkOutRatio, softIkOutRatio_spec, mul_neg_one]
  have hval : softIkOutRatio 10 (1 / 10) 0 (19 / 2) =
      (1 * (1 - Real.exp (-(1 / 2))) + 9) / (19 / 2) := by
    rw [hspec]
    simp only [softIkOutRatio_spec]
    norm_num
  have hsq : Real.exp (1 / 2 : ℝ) * Real.exp (1 / 2) = Real.exp 1 := by
    rw [← Real.exp_add]
    norm_num
  have hpos : (0 : ℝ) < Real.exp (1 / 2) := Real.exp_pos _
  have ha_lo : (1.6487 : ℝ) < Real.exp (1 / 2) := by
    nlinarith [Real.exp_one_gt_d9, hsq, hpos]
  have ha_hi : Real.exp (1 / 2 : ℝ) < 1.6488 := by
    nlinarith [Real.exp_one_lt_d9, hsq, hpos]
  have hmul : Real.exp (-(1 / 2 : ℝ)) * Real.exp (1 / 2) = 1 := by
    rw [← Real.exp_add]
    norm_num
  have hxpos : (0 : ℝ) < Real.exp (-(1 / 2 : ℝ)) := Real.exp_pos _
  have hx_hi : Real.exp (-(1 / 2 : ℝ)) < 0.60654 := by
    nlinarith [ha_lo, hmul, hxpos]
  have hx_lo : (0.6065 : ℝ) < Real.exp (-(1 / 2 : ℝ)) := by
    nlinarith [ha_hi, hmul, hxpos, hpos]
  refine ⟨hspec, ?_, hval, ?_, ?_, ?_⟩
  · rw [hspec]
    simp only [softIkOutRatio_spec]
    norm_num
  · rw [hval]
    have h9 : (0 : ℝ) < 19 / 2 := by norm_num
    rw [div_lt_div_iff_of_pos_right h9]
    linarith [hx_hi]
  · rw [hval]
    have h9 : (0 : ℝ) < 19 / 2 := by norm_num
    rw [div_lt_div_iff_of_pos_right h9]
    linarith [hx_lo]
  · intro D h0 h9
    rw [hspec]
    simp only [softIkOutRatio_spec]
    rw [if_neg (by norm_num : ¬ ((10 : ℝ) * (1 / 10)) = 0)]
    rw [if_neg (by norm_num; linarith :
      ¬ ((D - ((10 : ℝ) - 10 * (1 / 10))) / (10 * (1 / 10)) > 0))]
    norm_num
    exact div_self (ne_of_gt h0)

/-- Witness for `softIk_outRatio_ok` deep inside the safe zone, `D = 4.5`. -/
theorem softIk_outRatio_ok_witness :
    softIkOutRatio 10 (1 / 10) 0 (9 / 2) = 1 :=
  softIk_outRatio_ok.2.2.2.2.2 (9 / 2) (by norm_num) (by norm_num)

end Omtk
